import Mathlib

/-!
Verification of the Dramamu offline cache subsystem.

Shallow embedding of:
- the service worker (`src/unnamed/part_003`, served as `service-worker.js`):
  cache constants, install/activate handlers, fetch routing, and the
  `networkFirstStrategy` / `cacheFirstStrategy` functions;
- the foreground `CacheManager` (`src/frontend/premium-init.js`, the
  `cache-manager.js` part): `getVersion`, `checkCacheVersion`,
  `clearOldCaches`.

Modelling conventions:
- An HTTP response is a status code plus an opaque body string.
- A cache group (the browser `Cache` object) is an association list from
  request URL to stored response; `CacheStorage` (the browser `caches`
  object) is an association list from cache name to cache group, in
  creation order.
- The network (`fetch`) is a function from URL to `Option Response`:
  `some r` means the fetch promise resolves with response `r` (any status,
  including 4xx/5xx), `none` means the fetch promise rejects (network
  failure).
- Strategies are instrumented with the list of URLs they fetched from the
  network, so "issues no network request" is the statement `fetched = []`.
- Browser Cache API primitives (`caches.match`, `cache.put`,
  `cache.addAll`, `caches.keys`, `caches.delete`) are modelled with their
  standard semantics: `caches.match` searches every cache group in order;
  `cache.put` replaces any entry for the same request in that group;
  `cache.addAll` is atomic — it rejects, storing nothing, if any of its
  fetches rejects or returns a non-ok (outside 200-299) status.
-/

namespace Dramamu

/-- An HTTP response: status code and opaque body. -/
structure Response where
  status : Nat
  body : String
deriving DecidableEq

/-- One cache group: request URL to stored response, in insertion order. -/
abbrev CacheGroup := List (String × Response)

/-- The browser cache storage: cache name to group, in creation order. -/
abbrev CacheStorage := List (String × CacheGroup)

/-- The network: `some r` when `fetch` resolves with `r`, `none` when it
rejects. -/
abbrev Network := String → Option Response

/-- Does the character list `s` start with the character list `pat`? -/
def charsStartWith : List Char → List Char → Bool
  | [], _ => true
  | _ :: _, [] => false
  | a :: as, b :: bs => a == b && charsStartWith as bs

/-- Does the character list `s` contain `pat` as a contiguous run?
Embeds JavaScript `String.prototype.includes`. -/
def charsInclude : List Char → List Char → Bool
  | pat, [] => pat.isEmpty
  | pat, s@(_ :: rest) => charsStartWith pat s || charsInclude pat rest

/-- `strIncludes s pat` embeds JavaScript `s.includes(pat)`. -/
def strIncludes (s pat : String) : Bool :=
  charsInclude pat.data s.data

/-- `strEndsWith s pat` embeds JavaScript `s.endsWith(pat)`: `s` ends
with `pat` exactly when the reversed pattern is a prefix of the reversed
string. -/
def strEndsWith (s pat : String) : Bool :=
  charsStartWith pat.data.reverse s.data.reverse

/-- ASCII-case-insensitive character comparison, as the `/i` regex flag
applies to the ASCII extension alternatives in the router's image test. -/
def charLowerNat (c : Char) : Nat :=
  if 65 ≤ c.toNat ∧ c.toNat ≤ 90 then c.toNat + 32 else c.toNat

/-- Case-insensitive prefix test on character lists. -/
def charsStartWithI : List Char → List Char → Bool
  | [], _ => true
  | _ :: _, [] => false
  | a :: as, b :: bs =>
    charLowerNat a == charLowerNat b && charsStartWithI as bs

/-- `strEndsWithI s pat`: case-insensitive suffix test, embedding the
anchored case-insensitive extension regex of the router. -/
def strEndsWithI (s pat : String) : Bool :=
  charsStartWithI pat.data.reverse s.data.reverse

/-! Cache API primitives, in the standard browser semantics used by the
source. -/

/-- `cache.match(url)` within one group: first stored entry for `url`. -/
def groupMatch (g : CacheGroup) (url : String) : Option Response :=
  (g.find? (fun p => p.1 == url)).map (fun p => p.2)

/-- `caches.match(url)`: search every cache group in creation order and
return the first match, across all groups. -/
def cachesMatch : CacheStorage → String → Option Response
  | [], _ => none
  | e :: rest, url =>
    match groupMatch e.2 url with
    | some r => some r
    | none => cachesMatch rest url

/-- Replace any entry for `url` in the group, then add `(url, r)`.
Embeds `cache.put(request, response)`. -/
def putInGroup (g : CacheGroup) (url : String) (r : Response) : CacheGroup :=
  g.filter (fun p => !(p.1 == url)) ++ [(url, r)]

/-- `caches.open(name)` followed by `cache.put(url, r)`: the group is
created lazily at the end of the storage if absent. -/
def cachePut (s : CacheStorage) (name url : String) (r : Response) :
    CacheStorage :=
  if s.any (fun e => e.1 == name) then
    s.map (fun e => if e.1 == name then (e.1, putInGroup e.2 url r) else e)
  else
    s ++ [(name, putInGroup [] url r)]

/-- Does the group called `name` hold an entry for `url`? -/
def groupHas (s : CacheStorage) (name url : String) : Bool :=
  s.any (fun e => e.1 == name && e.2.any (fun p => p.1 == url))

/-! Service worker constants (`src/unnamed/part_003`, lines 1-21). -/

def CACHE_VERSION : String := "dramamu-v1.0.0"

def CACHE_ASSETS : String := CACHE_VERSION ++ "-assets"

def CACHE_PAGES : String := CACHE_VERSION ++ "-pages"

def ASSETS_TO_CACHE : List String :=
  ["/premium-styles.css", "/premium-icons.js", "/premium-init.js",
   "/navbar.js", "/config.js", "/cache-manager.js"]

def PAGES_TO_CACHE : List String :=
  ["/", "/home.html", "/drama.html", "/profil.html", "/favorit.html",
   "/request.html"]

/-! Install handler (`src/unnamed/part_003`, lines 24-35). -/

/-- Is a status ok in the `Response.ok` sense (200-299)? `cache.add` and
`cache.addAll` reject on any non-ok response. -/
def okStatus (n : Nat) : Bool := 200 ≤ n && n ≤ 299

/-- Does `cache.addAll(urls)` resolve? It rejects as soon as one fetch
rejects or yields a non-ok response. -/
def addAllSucceeds (net : Network) (urls : List String) : Bool :=
  urls.all (fun u =>
    match net u with
    | some r => okStatus r.status
    | none => false)

/-- `cache.addAll(urls)` on the group `name`: an atomic batch operation,
storing every fetched response when all fetches succeed and nothing at
all otherwise. -/
def addAllRun (net : Network) (s : CacheStorage) (name : String)
    (urls : List String) : CacheStorage :=
  if addAllSucceeds net urls then
    urls.foldl (fun acc u =>
      match net u with
      | some r => cachePut acc name u r
      | none => acc) s
  else s

/-- The install handler with an explicit manifest:
`caches.open(CACHE_ASSETS).then(cache => cache.addAll(manifest).catch(...))`.
The trailing `.catch` swallows the rejection, so the install step always
completes and the resulting storage is `addAllRun`'s result in both
cases. -/
def installWith (net : Network) (s : CacheStorage)
    (manifest : List String) : CacheStorage :=
  addAllRun net s CACHE_ASSETS manifest

/-- The install handler as shipped, with the fixed `ASSETS_TO_CACHE`
manifest. -/
def installEvent (net : Network) (s : CacheStorage) : CacheStorage :=
  installWith net s ASSETS_TO_CACHE

/-! Activate handler (`src/unnamed/part_003`, lines 38-53). -/

/-- The activate handler deletes `cacheName` exactly when
`cacheName !== CACHE_ASSETS && cacheName !== CACHE_PAGES &&
!cacheName.includes('dramamu')`; this is the survival condition. -/
def keepOnActivate (name : String) : Bool :=
  !(name != CACHE_ASSETS && name != CACHE_PAGES &&
    !(strIncludes name "dramamu"))

/-- The activate handler: enumerate `caches.keys()` and delete every cache
failing `keepOnActivate`. -/
def activateEvent (s : CacheStorage) : CacheStorage :=
  s.filter (fun e => keepOnActivate e.1)

/-! Fetch routing (`src/unnamed/part_003`, lines 56-93). -/

/-- An intercepted request: URL path, optional `Accept` header, HTTP
method, and whether its origin equals the worker's origin. -/
structure Request where
  pathname : String
  accept : Option String
  method : String
  sameOrigin : Bool

/-- Resource classes the router distinguishes. -/
inductive ReqClass
  | document
  | staticAsset
  | image
  | dflt
deriving DecidableEq

/-- `request.headers.get('accept')?.includes('text/html')` with optional
chaining: an absent header is falsy. -/
def isHtmlAccept : Option String → Bool
  | some a => strIncludes a "text/html"
  | none => false

/-- The router's classification, in source order: documents first
(`Accept` header, `/`, or `.html`), then `.css`/`.js` assets, then image
extensions case-insensitively, then the default class. -/
def classify (r : Request) : ReqClass :=
  if isHtmlAccept r.accept || r.pathname == "/" ||
      strEndsWith r.pathname ".html" then
    ReqClass.document
  else if strEndsWith r.pathname ".css" || strEndsWith r.pathname ".js" then
    ReqClass.staticAsset
  else if strEndsWithI r.pathname ".png" || strEndsWithI r.pathname ".jpg" ||
      strEndsWithI r.pathname ".jpeg" || strEndsWithI r.pathname ".gif" ||
      strEndsWithI r.pathname ".svg" || strEndsWithI r.pathname ".webp" then
    ReqClass.image
  else
    ReqClass.dflt

/-! The two strategies (`src/unnamed/part_003`, lines 96-129). -/

/-- Result of a strategy: the response given to the page, the cache
storage afterwards, and the URLs fetched from the network, in order. -/
structure StratResult where
  response : Response
  store : CacheStorage
  fetched : List String
deriving DecidableEq

/-- `networkFirstStrategy(request)`: fetch; on a resolved response cache a
clone into `CACHE_PAGES` when the status is 200 and return the live
response whatever its status; on rejection fall back to
`caches.match(request)` and finally to a synthetic 503. -/
def networkFirstStrategy (net : Network) (s : CacheStorage)
    (url : String) : StratResult :=
  match net url with
  | some response =>
    if response.status == 200 then
      { response := response,
        store := cachePut s CACHE_PAGES url response,
        fetched := [url] }
    else
      { response := response, store := s, fetched := [url] }
  | none =>
    match cachesMatch s url with
    | some cached => { response := cached, store := s, fetched := [url] }
    | none =>
      { response := { status := 503, body := "Offline - page not available" },
        store := s, fetched := [url] }

/-- `cacheFirstStrategy(request)`: return `caches.match(request)` when it
hits, issuing no fetch; otherwise fetch, cache a clone into
`CACHE_ASSETS` on status 200, return the live response, and on rejection
return a synthetic 503. -/
def cacheFirstStrategy (net : Network) (s : CacheStorage)
    (url : String) : StratResult :=
  match cachesMatch s url with
  | some cached => { response := cached, store := s, fetched := [] }
  | none =>
    match net url with
    | some response =>
      if response.status == 200 then
        { response := response,
          store := cachePut s CACHE_ASSETS url response,
          fetched := [url] }
      else
        { response := response, store := s, fetched := [url] }
    | none =>
      { response :=
          { status := 503, body := "Resource not available offline" },
        store := s, fetched := [url] }

/-- The fetch handler: pass non-GET and cross-origin requests through
untouched (`none`), else dispatch on the request class — network-first
for documents and the default class, cache-first for static assets and
images. -/
def handleFetch (net : Network) (s : CacheStorage) (r : Request) :
    Option StratResult :=
  if r.method != "GET" then none
  else if !r.sameOrigin then none
  else some
    (match classify r with
     | ReqClass.document => networkFirstStrategy net s r.pathname
     | ReqClass.staticAsset => cacheFirstStrategy net s r.pathname
     | ReqClass.image => cacheFirstStrategy net s r.pathname
     | ReqClass.dflt => networkFirstStrategy net s r.pathname)

/-! CacheManager (`src/frontend/premium-init.js`, cache-manager part). -/

/-- `getVersion()`: a template literal of the current timestamp and a
random base-36 suffix; the sources of nondeterminism are parameters. -/
def getVersion (timestamp : Nat) (hash : String) : String :=
  toString timestamp ++ "-" ++ hash

/-- Foreground client state: the `localStorage` marker under
`dramamu-cache-version` (`none` when absent) and the cache storage. -/
structure ClientState where
  marker : Option String
  store : CacheStorage
deriving DecidableEq

/-- `clearOldCaches()`: delete every cache whose name does not include
`'dramamu'`. -/
def clearOldCaches (s : CacheStorage) : CacheStorage :=
  s.filter (fun e => strIncludes e.1 "dramamu")

/-- `checkCacheVersion()`: read the stored marker; when it differs from
the current version token (`!==`, so an absent marker also differs),
clear old caches and write the token as the new marker. `init()` invokes
this after (non-state-relevant) worker registration. -/
def checkCacheVersion (version : String) (st : ClientState) : ClientState :=
  if st.marker = some version then st
  else { marker := some version, store := clearOldCaches st.store }

/-! Concrete fixtures used by counterexamples and witnesses. -/

/-- A plausible first-load version token (timestamp plus random suffix). -/
def tokenA : String := "1735689600000-K7"

/-- A later, distinct version token. -/
def tokenB : String := "1735693200000-Q2"

/-- Client state after a completed initialization under `tokenA`, with the
service worker's assets group populated. -/
def st1 : ClientState :=
  { marker := some tokenA,
    store := [(CACHE_ASSETS,
      [("/premium-styles.css", { status := 200, body := "css v1" })])] }

/-- A stale cached 200 page. -/
def r2stale : Response := { status := 200, body := "stale page" }

/-- An HTTP 500 error response. -/
def r2err : Response := { status := 500, body := "server error" }

/-- A network where `/index.html` resolves with HTTP 500 and every other
fetch rejects. -/
def net2 : Network :=
  fun u => if u == "/index.html" then some r2err else none

/-- A network where every fetch rejects. -/
def net2b : Network := fun _ => none

/-- Storage holding a stale cached 200 entry for `/index.html` in the
pages group. -/
def st2 : CacheStorage := [(CACHE_PAGES, [("/index.html", r2stale)])]

/-- A network where `/a.css` resolves with a 200 and every other fetch
(in particular `/b.js`) rejects. -/
def net3 : Network :=
  fun u => if u == "/a.css" then some { status := 200, body := "a" }
           else none

/-- A pre-existing cached asset for the C5 witness. -/
def st5 : CacheStorage :=
  [(CACHE_ASSETS, [("/app.css", { status := 200, body := "css body" })])]

/-- A network where `/home.html` resolves with a 200 and every other
fetch rejects. -/
def net6 : Network :=
  fun u => if u == "/home.html" then some { status := 200, body := "home" }
           else none

/-- Client state with no persisted marker and one foreign cache. -/
def st7 : ClientState :=
  { marker := none, store := [("workbox-precache", [])] }

/-- A cached 200 stylesheet response. -/
def r10 : Response := { status := 200, body := "cached stylesheet" }

/-- Storage where `/style.css` is stored only in the pages group; the
assets group does not even exist. -/
def st10 : CacheStorage := [(CACHE_PAGES, [("/style.css", r10)])]

/-- A same-origin GET request for `/style.css` with no Accept header. -/
def req10 : Request :=
  { pathname := "/style.css", accept := none, method := "GET",
    sameOrigin := true }

/-- A cached 200 page response. -/
def r10b : Response := { status := 200, body := "cached page" }

/-- Storage where `/page.html` is stored only in the assets group. -/
def st10b : CacheStorage := [(CACHE_ASSETS, [("/page.html", r10b)])]

/-! Helper lemmas. -/

/-- After `putInGroup`, the group holds an entry for the written URL. -/
theorem putInGroup_any (g : CacheGroup) (url : String) (r : Response) :
    (putInGroup g url r).any (fun p => p.1 == url) = true := by
  simp [putInGroup]

/-- Auxiliary to `groupHas_cachePut`: the mapped update of an existing
group keeps an entry for the written URL visible to `groupHas`. -/
theorem any_map_put (s : CacheStorage) (name url : String) (r : Response)
    (h : s.any (fun e => e.1 == name) = true) :
    (s.map (fun e =>
      if e.1 == name then (e.1, putInGroup e.2 url r) else e)).any
      (fun e => e.1 == name && e.2.any (fun p => p.1 == url)) = true := by
  induction s with
  | nil => simp at h
  | cons e rest ih =>
    simp only [List.any_cons, Bool.or_eq_true] at h
    rcases h with h | h
    · have h' : e.1 = name := by simpa using h
      subst h'
      simp [List.any_cons, putInGroup_any]
    · simp only [List.map_cons, List.any_cons, Bool.or_eq_true]
      exact Or.inr (ih h)

/-- After `cachePut s name url r`, the group called `name` holds an entry
for `url`. -/
theorem groupHas_cachePut (s : CacheStorage) (name url : String)
    (r : Response) :
    groupHas (cachePut s name url r) name url = true := by
  unfold groupHas cachePut
  split
  · exact any_map_put s name url r (by assumption)
  · simp [putInGroup]

/-! Claim theorems. -/

/-- C9: calling `clearOldCaches` twice in succession, with no cache
population in between, yields the same storage as calling it once — the
second call deletes nothing. -/
theorem C9_purge_idempotent (s : CacheStorage) :
    clearOldCaches (clearOldCaches s) = clearOldCaches s := by
  simp [clearOldCaches, List.filter_filter]

/-- C8: activation keeps a cache group exactly when its name is the
current assets group, the current pages group, or includes the product
namespace token `'dramamu'`; every other group is deleted. -/
theorem C8_activate_exact (s : CacheStorage) (e : String × CacheGroup) :
    e ∈ activateEvent s ↔
      e ∈ s ∧ (e.1 = CACHE_ASSETS ∨ e.1 = CACHE_PAGES ∨
        strIncludes e.1 "dramamu" = true) := by
  simp [activateEvent, keepOnActivate, List.mem_filter]
  tauto

/-- C5: when a cache entry for the URL exists (in any group), the
cache-first strategy returns that entry, fetches nothing from the
network, and leaves the cache storage unchanged. -/
theorem C5_cacheFirst_silent_on_hit (net : Network) (s : CacheStorage)
    (url : String) (c : Response) (hc : cachesMatch s url = some c) :
    cacheFirstStrategy net s url =
      { response := c, store := s, fetched := [] } := by
  simp [cacheFirstStrategy, hc]

/-- C5 witness: a concrete pre-cached stylesheet is served with no fetch
and no storage change, even though every network fetch would reject. -/
theorem C5_witness :
    cacheFirstStrategy (fun _ => none) st5 "/app.css" =
      { response := { status := 200, body := "css body" },
        store := st5, fetched := [] } :=
  C5_cacheFirst_silent_on_hit (fun _ => none) st5 "/app.css"
    { status := 200, body := "css body" } (by decide)

/-- C4: for any request, when the network fetch rejects and no cache
entry for the URL exists, both strategies resolve with a synthetic
status-503 response instead of propagating the rejection. -/
theorem C4_offline_503 (net : Network) (s : CacheStorage) (url : String)
    (hn : net url = none) (hc : cachesMatch s url = none) :
    (networkFirstStrategy net s url).response.status = 503 ∧
    (cacheFirstStrategy net s url).response.status = 503 := by
  constructor
  · simp [networkFirstStrategy, hn, hc]
  · simp [cacheFirstStrategy, hn, hc]

/-- C4 witness: with an always-failing network and empty storage, both
strategies return a 503 response for `/x`. -/
theorem C4_witness :
    (networkFirstStrategy (fun _ => none) [] "/x").response.status = 503 ∧
    (cacheFirstStrategy (fun _ => none) [] "/x").response.status = 503 :=
  C4_offline_503 (fun _ => none) [] "/x" rfl rfl

/-- C7: `checkCacheVersion` (the state-relevant part of initialization)
purges the non-namespace groups and writes the token whenever the
persisted marker is absent or differs from the token; in every case the
marker afterwards equals the version token used for the decision. -/
theorem C7_version_check (v : String) (st : ClientState) :
    (st.marker ≠ some v →
      checkCacheVersion v st =
        { marker := some v, store := clearOldCaches st.store }) ∧
    (checkCacheVersion v st).marker = some v := by
  constructor
  · intro h
    unfold checkCacheVersion
    rw [if_neg h]
  · by_cases h : st.marker = some v
    · unfold checkCacheVersion
      rw [if_pos h]
      exact h
    · unfold checkCacheVersion
      rw [if_neg h]

/-- C7 witness: first run (absent marker) purges the foreign cache and
persists the fresh token. -/
theorem C7_witness :
    checkCacheVersion tokenA st7 =
      { marker := some tokenA, store := clearOldCaches st7.store } ∧
    (checkCacheVersion tokenA st7).marker = some tokenA :=
  ⟨(C7_version_check tokenA st7).1 (by decide),
   (C7_version_check tokenA st7).2⟩

/-- C6: when the network fetch for a URL resolves with status 200, the
network-first strategy returns that very response and the pages group
afterwards contains an entry for the URL. -/
theorem C6_networkFirst_success (net : Network) (s : CacheStorage)
    (url : String) (r : Response) (hn : net url = some r)
    (h200 : r.status = 200) :
    (networkFirstStrategy net s url).response = r ∧
    groupHas (networkFirstStrategy net s url).store CACHE_PAGES url
      = true := by
  simp [networkFirstStrategy, hn, h200, groupHas_cachePut]

/-- C6 witness: a live 200 fetch of `/home.html` is returned and a pages
group entry for `/home.html` now exists. -/
theorem C6_witness :
    (networkFirstStrategy net6 [] "/home.html").response =
      { status := 200, body := "home" } ∧
    groupHas (networkFirstStrategy net6 [] "/home.html").store CACHE_PAGES
      "/home.html" = true :=
  C6_networkFirst_success net6 [] "/home.html"
    { status := 200, body := "home" } (by decide) rfl

/-- C2 counterexample: with the network resolving `/index.html` as an
HTTP 500 and a stale cached 200 entry present, the network-first
strategy returns the 500 error response, not the cached 200 — the
cache fallback only runs when the fetch rejects. -/
theorem C2_counterexample :
    cachesMatch st2 "/index.html" = some r2stale ∧
    (networkFirstStrategy net2 st2 "/index.html").response = r2err ∧
    (networkFirstStrategy net2 st2 "/index.html").response ≠ r2stale := by
  decide

/-- C2 amended: with a cached entry present, the network-first strategy
returns the cached response when the network fetch rejects; when the
fetch resolves — with any status, 500 included — the network response
itself is returned. -/
theorem C2_amended_fallback (net : Network) (s : CacheStorage)
    (url : String) (c : Response) (hc : cachesMatch s url = some c) :
    (net url = none → (networkFirstStrategy net s url).response = c) ∧
    (∀ r : Response, net url = some r →
      (networkFirstStrategy net s url).response = r) := by
  refine ⟨fun hn => by simp [networkFirstStrategy, hn, hc],
    fun r hr => ?_⟩
  by_cases h : r.status = 200
  · simp [networkFirstStrategy, hr, h]
  · simp [networkFirstStrategy, hr, h]

/-- C2 amended witness: with every fetch rejecting, the stale cached 200
entry for `/index.html` is returned. -/
theorem C2_amended_witness :
    (networkFirstStrategy net2b st2 "/index.html").response = r2stale :=
  (C2_amended_fallback net2b st2 "/index.html" r2stale (by decide)).1 rfl

/-- C1 counterexample: tokens A and B differ, yet re-initializing with B
leaves the storage untouched — the group populated before the second
initialization survives because its fixed name includes `'dramamu'`,
and its name is not under B's namespace. -/
theorem C1_counterexample :
    tokenA ≠ tokenB ∧
    (checkCacheVersion tokenB st1).store = st1.store ∧
    st1.store ≠ [] ∧
    strIncludes CACHE_ASSETS tokenB = false := by
  decide

/-- C1 amended: re-initializing with a different token B purges exactly
the groups whose names do not include the namespace token `'dramamu'`
and writes B as the marker; namespace-named groups survive unchanged
(group names are fixed constants, independent of the version token). -/
theorem C1_amended_purge (A B : String) (st : ClientState)
    (hm : st.marker = some A) (hAB : A ≠ B) :
    (checkCacheVersion B st).store =
      st.store.filter (fun e => strIncludes e.1 "dramamu") ∧
    (checkCacheVersion B st).marker = some B := by
  have h : st.marker ≠ some B := by
    rw [hm]
    intro hsome
    exact hAB (Option.some.inj hsome)
  unfold checkCacheVersion
  rw [if_neg h]
  exact ⟨rfl, rfl⟩

/-- C1 amended witness: re-initializing the concrete post-A state with
token B keeps the namespace-named assets group and updates the marker. -/
theorem C1_amended_witness :
    (checkCacheVersion tokenB st1).store =
      st1.store.filter (fun e => strIncludes e.1 "dramamu") ∧
    (checkCacheVersion tokenB st1).marker = some tokenB :=
  C1_amended_purge tokenA tokenB st1 rfl (by decide)

/-- C3 counterexample: with `/a.css` fetchable and `/b.js` rejecting,
the atomic `cache.addAll` stores nothing, so after the install step the
assets group holds no entry for `/a.css`. -/
theorem C3_counterexample :
    net3 "/a.css" = some { status := 200, body := "a" } ∧
    net3 "/b.js" = none ∧
    installWith net3 [] ["/a.css", "/b.js"] = [] ∧
    groupHas (installWith net3 [] ["/a.css", "/b.js"]) CACHE_ASSETS
      "/a.css" = false := by
  decide

/-- C3 amended: when fetching `/a.css` succeeds but `/b.js` rejects,
`cache.addAll`'s atomicity means the install step leaves the cache
storage entirely unchanged — neither URL is cached — while the caught
rejection lets the install step complete without throwing. -/
theorem C3_amended_install (net : Network) (s : CacheStorage)
    (ha : net "/a.css" ≠ none) (hb : net "/b.js" = none) :
    installWith net s ["/a.css", "/b.js"] = s := by
  simp [installWith, addAllRun, addAllSucceeds, hb]

/-- C3 amended witness: the concrete partial-failure install leaves a
pre-existing storage unchanged. -/
theorem C3_amended_witness :
    installWith net3 [(CACHE_PAGES, [])] ["/a.css", "/b.js"] =
      [(CACHE_PAGES, [])] :=
  C3_amended_install net3 [(CACHE_PAGES, [])] (by decide) (by decide)

/-- C10: cache lookups go through `caches.match`, which searches every
group: a GET for `/style.css` is classified static-asset, there is no
assets-group entry for it, yet the fetch handler serves the entry stored
in the pages group with no network fetch (for every network); dually,
the network-first offline fallback serves an entry stored only in the
assets group. -/
theorem C10_cross_group_match (net : Network) :
    classify req10 = ReqClass.staticAsset ∧
    groupHas st10 CACHE_ASSETS "/style.css" = false ∧
    handleFetch net st10 req10 =
      some { response := r10, store := st10, fetched := [] } ∧
    (networkFirstStrategy (fun _ => none) st10b "/page.html").response
      = r10b := by
  refine ⟨by decide, by decide, ?_, by decide⟩
  rfl

end Dramamu
